import Mathlib

/-!
Shallow embedding of `gpiozero/pins/rpigpio.py` (class `RPiGPIOPin`).

The Python class keeps per-pin software state (`_pull`, `_pwm`, `_frequency`,
`_duty_cycle`, `_bounce`, `_edges`) alongside the hardware registers driven
through the external `RPi.GPIO` library.  Here the hardware side of one pin is
an explicit `HWState`, the external library calls become pure updates of that
record, and each Python method becomes a function `PinState → Option Err ×
PinState`: the first component is the exception raised (if any), the second the
observable state after the call, error paths included (Python leaves the
mutations already performed in place when an exception propagates).

Numbers are rationals: the Python code only multiplies and divides by integer
constants and truncates with `int`, so no floating-point behaviour is relevant
to the claims.
-/

namespace RPiGPIO

/- Numeric constants of the external `RPi.GPIO` module, with their real
values, so that the dictionaries below and the stored `_edges` mirror the
source exactly. -/
namespace GPIO

def IN : Int := 1
def OUT : Int := 0
def SERIAL : Int := 40
def SPI : Int := 41
def I2C : Int := 42
def HARD_PWM : Int := 43
def UNKNOWN : Int := -1
def PUD_OFF : Int := 20
def PUD_DOWN : Int := 21
def PUD_UP : Int := 22
def RISING : Int := 31
def FALLING : Int := 32
def BOTH : Int := 33

end GPIO

/-- Exceptions that the embedded methods can raise.  The seven `Pin*`
constructors are the gpiozero error taxonomy imported at the top of
`rpigpio.py`; `KeyError`, `ValueError` and `RuntimeError` are raw Python
exceptions from dictionary lookups and from the `RPi.GPIO` library. -/
inductive Err where
  | PinInvalidFunction
  | PinSetInput
  | PinFixedPull
  | PinInvalidPull
  | PinInvalidState
  | PinInvalidBounce
  | PinPWMFixedValue
  | KeyError
  | ValueError
  | RuntimeError
  deriving Repr, DecidableEq

/-- Whether an error belongs to the gpiozero error taxonomy (as opposed to a
raw Python / RPi.GPIO exception leaking through). -/
def taxonomyErr : Err → Bool
  | Err.PinInvalidFunction => true
  | Err.PinSetInput => true
  | Err.PinFixedPull => true
  | Err.PinInvalidPull => true
  | Err.PinInvalidState => true
  | Err.PinInvalidBounce => true
  | Err.PinPWMFixedValue => true
  | Err.KeyError => false
  | Err.ValueError => false
  | Err.RuntimeError => false

/-- Python dictionary lookup `d[k]` for the string-keyed tables: `none` is a
`KeyError`. -/
def dictGet (d : List (String × Int)) (k : String) : Option Int :=
  (d.find? (fun p => p.1 == k)).map Prod.snd

/-- Lookup in the inverted table `{v: k for (k, v) in d.items()}`. -/
def dictGetName (d : List (String × Int)) (c : Int) : Option String :=
  (d.find? (fun p => p.2 == c)).map Prod.fst

/-- `RPiGPIOPin.GPIO_FUNCTIONS`. -/
def GPIO_FUNCTIONS : List (String × Int) :=
  [("input", GPIO.IN), ("output", GPIO.OUT), ("i2c", GPIO.I2C),
   ("spi", GPIO.SPI), ("pwm", GPIO.HARD_PWM), ("serial", GPIO.SERIAL),
   ("unknown", GPIO.UNKNOWN)]

/-- `RPiGPIOPin.GPIO_PULL_UPS`. -/
def GPIO_PULL_UPS : List (String × Int) :=
  [("up", GPIO.PUD_UP), ("down", GPIO.PUD_DOWN), ("floating", GPIO.PUD_OFF)]

/-- `RPiGPIOPin.GPIO_EDGES`. -/
def GPIO_EDGES : List (String × Int) :=
  [("both", GPIO.BOTH), ("rising", GPIO.RISING), ("falling", GPIO.FALLING)]

/-- Hardware-side state of one pin, as driven through the external `RPi.GPIO`
library: the direction/pull configured by `GPIO.setup`, the driven output
level, the software PWM channel, and the event-detect registration
(`add_event_detect` / `remove_event_detect`) recording the edge constant and
bounce time it was registered with. -/
structure HWState where
  func : Int := GPIO.UNKNOWN
  pud : Int := GPIO.PUD_OFF
  level : Bool := false
  pwmRunning : Bool := false
  pwmFreq : ℚ := 0
  pwmDuty : ℚ := 0
  eventDetect : Option (Int × Int) := none
  deriving Repr, DecidableEq

/-- `GPIO.setup(number, direction, pull)`. -/
def gpioSetup (hw : HWState) (direction pud : Int) : HWState :=
  { hw with func := direction, pud := pud }

/-- Full observable state of one `RPiGPIOPin`: the instance attributes set in
`__init__` plus the hardware state.  `pwm` is the truth value of
`self._pwm is not None`; `whenChanged` is the currently registered
`when_changed` callback, identified by an opaque token. -/
structure PinState where
  hw : HWState
  pull : String
  pwm : Bool
  frequency : Option ℚ
  dutyCycle : Option ℚ
  bounce : Int
  edges : Int
  whenChanged : Option Nat
  deriving Repr, DecidableEq

/-- Python `int()` on a rational: truncation toward zero. -/
def truncInt (q : ℚ) : Int := if 0 ≤ q then ⌊q⌋ else ⌈q⌉

/-- `RPiGPIOPin.__init__`: the board metadata `pi_info.pulled_up(...)` is the
external `pulledUp` flag; the pin starts as an input with the board-fixed
pull-up if one exists, else floating, bounce sentinel `-666`, edges `BOTH`,
no PWM and no callback. -/
def initPin (pulledUp : Bool) : PinState :=
  let pull := if pulledUp then "up" else "floating"
  { hw := gpioSetup {} GPIO.IN ((dictGet GPIO_PULL_UPS pull).getD GPIO.PUD_OFF)
    pull := pull
    pwm := false
    frequency := none
    dutyCycle := none
    bounce := -666
    edges := GPIO.BOTH
    whenChanged := none }

/-- Modelled from the spec: the `when_changed` property setter lives in the
base `Pin` class (`gpiozero/pins/pin.py`, not part of the given source).  Per
the spec, assigning a non-null callback while none is registered enables the
hardware interrupt for the current edges/bounce configuration
(`_enable_event_detect`, which in the source calls `GPIO.add_event_detect`
with `self._edges` and `self._bounce`); assigning null while one is registered
disables it (`_disable_event_detect`); otherwise only the stored callback
changes. -/
def set_when_changed (s : PinState) (cb : Option Nat) : PinState :=
  match cb, s.whenChanged with
  | some c, none =>
      { s with whenChanged := some c
               hw := { s.hw with eventDetect := some (s.edges, s.bounce) } }
  | none, some _ =>
      { s with whenChanged := none
               hw := { s.hw with eventDetect := none } }
  | _, _ => { s with whenChanged := cb }

/-- `RPiGPIOPin._get_function`: reads the hardware direction back through
`GPIO.gpio_function` and the inverted name table (`none` is the `KeyError`
case of that lookup). -/
def get_function (s : PinState) : Option String :=
  dictGetName GPIO_FUNCTIONS s.hw.func

/-- `RPiGPIOPin._set_function`.  Note the order of the source: `self._pull`
is overwritten with `"floating"` for every value other than `"input"` BEFORE
the value is validated, so the pull mutation survives the
`PinInvalidFunction` error path.  The `KeyError` arm is the (unreachable for
well-formed `pull`) lookup `self.GPIO_PULL_UPS[self._pull]`. -/
def set_function (s : PinState) (value : String) : Option Err × PinState :=
  let s := if value ≠ "input" then { s with pull := "floating" } else s
  if (value = "input" ∨ value = "output") ∧ (dictGet GPIO_FUNCTIONS value).isSome then
    match dictGet GPIO_FUNCTIONS value, dictGet GPIO_PULL_UPS s.pull with
    | some d, some p => (none, { s with hw := gpioSetup s.hw d p })
    | _, _ => (some Err.KeyError, s)
  else
    (some Err.PinInvalidFunction, s)

/-- `RPiGPIOPin._get_state`: the stored duty cycle in PWM mode, else the
digital level read through `GPIO.input` (reported as 1 or 0). -/
def get_state (s : PinState) : Option ℚ :=
  if s.pwm then s.dutyCycle
  else some (if s.hw.level then 1 else 0)

/-- `RPiGPIOPin._set_state`.  In PWM mode `ChangeDutyCycle(value * 100)`
raises `ValueError` outside 0..100, remapped to `PinInvalidState`, and only
then is `self._duty_cycle` recorded.  In digital mode `GPIO.output` raises
`RuntimeError` when the channel is not set up as an output (remapped to
`PinSetInput`) and `ValueError` for a value that is not a digital level
(remapped to `PinInvalidState`). -/
def set_state (s : PinState) (value : ℚ) : Option Err × PinState :=
  if s.pwm then
    if value * 100 < 0 ∨ 100 < value * 100 then
      (some Err.PinInvalidState, s)
    else
      (none, { s with hw := { s.hw with pwmDuty := value * 100 }
                      dutyCycle := some value })
  else
    if s.hw.func ≠ GPIO.OUT then
      (some Err.PinSetInput, s)
    else if value ≠ 0 ∧ value ≠ 1 then
      (some Err.PinInvalidState, s)
    else
      (none, { s with hw := { s.hw with level := decide (value = 1) } })

/-- `RPiGPIOPin._get_pull`. -/
def get_pull (s : PinState) : String := s.pull

/-- `RPiGPIOPin._set_pull`: rejects with `PinFixedPull` when the function read
back from hardware is not `input` (a hardware function outside the name table
would raise the `KeyError` of `_get_function` first), or when the board has a
physical pull-up and the value is not `"up"`; an unknown pull value raises
`PinInvalidPull` from the `GPIO_PULL_UPS` lookup; otherwise the pull is
reconfigured and recorded. -/
def set_pull (pulledUp : Bool) (s : PinState) (value : String) :
    Option Err × PinState :=
  match get_function s with
  | none => (some Err.KeyError, s)
  | some fn =>
    if fn ≠ "input" then (some Err.PinFixedPull, s)
    else if value ≠ "up" ∧ pulledUp then (some Err.PinFixedPull, s)
    else
      match dictGet GPIO_PULL_UPS value with
      | none => (some Err.PinInvalidPull, s)
      | some pud =>
          (none, { s with hw := gpioSetup s.hw GPIO.IN pud, pull := value })

/-- `RPiGPIOPin._get_frequency`. -/
def get_frequency (s : PinState) : Option ℚ := s.frequency

/-- `RPiGPIOPin._set_frequency`: the four-branch transition on
`(self._frequency, value)`.  `GPIO.PWM` raises `RuntimeError` when the pin
cannot host software PWM (modelled by the external flag `pwmAllowed`),
remapped to `PinPWMFixedValue`; both `GPIO.PWM` and `ChangeFrequency` raise
`ValueError` for a non-positive rate, which the source does NOT catch. -/
def set_frequency (pwmAllowed : Bool) (s : PinState) (value : Option ℚ) :
    Option Err × PinState :=
  match s.frequency, value with
  | none, some v =>
      if ¬ pwmAllowed then (some Err.PinPWMFixedValue, s)
      else if v ≤ 0 then (some Err.ValueError, s)
      else
        (none, { s with pwm := true
                        hw := { s.hw with pwmRunning := true, pwmFreq := v, pwmDuty := 0 }
                        dutyCycle := some 0
                        frequency := some v })
  | some _, some v =>
      if v ≤ 0 then (some Err.ValueError, s)
      else (none, { s with hw := { s.hw with pwmFreq := v }, frequency := some v })
  | some _, none =>
      (none, { s with pwm := false
                      hw := { s.hw with pwmRunning := false }
                      dutyCycle := none
                      frequency := none })
  | none, none => (none, s)

/-- `RPiGPIOPin._get_bounce`: the sentinel `-666` reads back as `None`, any
other stored value as `self._bounce / 1000` seconds. -/
def get_bounce (s : PinState) : Option ℚ :=
  if s.bounce = -666 then none else some ((s.bounce : ℚ) / 1000)

/-- `RPiGPIOPin._set_bounce`: a negative value raises `PinInvalidBounce`
before anything is touched; otherwise the callback is saved and detached, the
stored value becomes `-666` for `None` and `int(value * 1000)` otherwise, and
the callback is reattached in the `finally` block. -/
def set_bounce (s : PinState) (value : Option ℚ) : Option Err × PinState :=
  match value with
  | some v =>
      if v < 0 then (some Err.PinInvalidBounce, s)
      else
        let f := s.whenChanged
        let s1 := set_when_changed s none
        let s2 := { s1 with bounce := truncInt (v * 1000) }
        (none, set_when_changed s2 f)
  | none =>
      let f := s.whenChanged
      let s1 := set_when_changed s none
      let s2 := { s1 with bounce := -666 }
      (none, set_when_changed s2 f)

/-- `RPiGPIOPin._get_edges`. -/
def get_edges (s : PinState) : Option String :=
  dictGetName GPIO_EDGES s.edges

/-- `RPiGPIOPin._set_edges`: the callback is saved and detached, then
`self._edges = self.GPIO_EDGES[value]` runs inside `try`, and the `finally`
block reattaches the callback; an unknown value raises the dictionary
`KeyError`, which propagates to the caller unhandled (there is no `except`
clause), after the callback is restored. -/
def set_edges (s : PinState) (value : String) : Option Err × PinState :=
  let f := s.whenChanged
  let s1 := set_when_changed s none
  match dictGet GPIO_EDGES value with
  | some e => (none, set_when_changed { s1 with edges := e } f)
  | none => (some Err.KeyError, set_when_changed s1 f)

/-! ## Helper lemmas -/

lemma set_when_changed_whenChanged (s : PinState) (cb : Option Nat) :
    (set_when_changed s cb).whenChanged = cb := by
  obtain ⟨h, p, q, fr, dc, b, e, wc⟩ := s
  rcases cb with _ | c <;> rcases wc with _ | w <;> rfl

lemma set_when_changed_bounce (s : PinState) (cb : Option Nat) :
    (set_when_changed s cb).bounce = s.bounce := by
  obtain ⟨h, p, q, fr, dc, b, e, wc⟩ := s
  rcases cb with _ | c <;> rcases wc with _ | w <;> rfl

lemma set_when_changed_edges (s : PinState) (cb : Option Nat) :
    (set_when_changed s cb).edges = s.edges := by
  obtain ⟨h, p, q, fr, dc, b, e, wc⟩ := s
  rcases cb with _ | c <;> rcases wc with _ | w <;> rfl

lemma dictGet_eq_none (d : List (String × Int)) (k : String)
    (h : ∀ p ∈ d, p.1 ≠ k) : dictGet d k = none := by
  unfold dictGet
  rw [List.find?_eq_none.mpr]
  · rfl
  · intro p hp
    simpa using h p hp

lemma dictGet_functions_input : dictGet GPIO_FUNCTIONS "input" = some GPIO.IN := rfl

lemma dictGet_functions_output : dictGet GPIO_FUNCTIONS "output" = some GPIO.OUT := rfl

lemma dictGet_pulls_up : dictGet GPIO_PULL_UPS "up" = some GPIO.PUD_UP := rfl

lemma dictGet_pulls_floating : dictGet GPIO_PULL_UPS "floating" = some GPIO.PUD_OFF := rfl

/-! ## Claims -/

/-- Claim C1, counterexample.  The claim states that on a pin with a
board-reported fixed pull (here a pull-up, so the recorded pull starts as
"up"), `set_function("input")` after a switch to output resets the recorded
pull to the board-fixed value.  In the source, `_set_function` never consults
the board data: after output (which forces "floating") a switch back to input
leaves the pull at "floating", not "up". -/
theorem C1_counterexample_pull_not_reset :
    get_pull (initPin true) = "up" ∧
    get_pull (set_function (set_function (initPin true) "output").2 "input").2 ≠ "up" ∧
    get_pull (set_function (set_function (initPin true) "output").2 "input").2 = "floating" := by
  decide

/-- Claim C1, amended: `set_function("input")` leaves the recorded pull
unchanged for every pin — it is never reset to a board-fixed value — so after
a previous switch to output it stays at "floating"; for a pin with no fixed
pull this coincides with the original claim (pull stays at its last input
pull or floating). -/
theorem C1_amended_input_keeps_pull (s : PinState) :
    get_pull (set_function s "input").2 = get_pull s ∧
    get_pull (set_function (set_function s "output").2 "input").2 = "floating" := by
  have key : ∀ t : PinState, get_pull (set_function t "input").2 = get_pull t := by
    intro t
    unfold set_function get_pull
    rcases hp : dictGet GPIO_PULL_UPS t.pull with _ | p <;>
      simp [hp, dictGet_functions_input, gpioSetup]
  refine ⟨key s, ?_⟩
  rw [key (set_function s "output").2]
  unfold set_function get_pull
  simp [dictGet_functions_output, dictGet_pulls_floating, gpioSetup]

/-- Claim C2: for every pin, every bounce value and every edges value, the
`when_changed` registration after `set_bounce` / `set_edges` equals the
registration before the call, on every exit path (the pre-check error path of
`set_bounce`, the `KeyError` path of `set_edges`, and the success paths),
thanks to the save / detach / `finally`-reattach discipline of the source. -/
theorem C2_callback_registration_preserved (s : PinState) (bv : Option ℚ) (ev : String) :
    (set_bounce s bv).2.whenChanged = s.whenChanged ∧
    (set_edges s ev).2.whenChanged = s.whenChanged := by
  constructor
  · unfold set_bounce
    rcases bv with _ | v
    · simp [set_when_changed_whenChanged]
    · by_cases hv : v < 0 <;> simp [hv, set_when_changed_whenChanged]
  · unfold set_edges
    rcases h : dictGet GPIO_EDGES ev with _ | e <;>
      simp [h, set_when_changed_whenChanged]

/-- Claim C3, counterexample.  The claim states that `set_function` with an
invalid value fails with `PinInvalidFunction` and leaves the recorded pull
unchanged.  In the source the assignment `self._pull = "floating"` precedes
validation, so `set_function("i2c")` on a pin whose recorded pull is "up"
raises `PinInvalidFunction` with the pull already overwritten to
"floating". -/
theorem C3_counterexample_pull_mutated_on_error :
    (set_function (initPin true) "i2c").1 = some Err.PinInvalidFunction ∧
    get_pull (initPin true) = "up" ∧
    get_pull (set_function (initPin true) "i2c").2 = "floating" := by
  decide

/-- Claim C3, amended: for every value outside {input, output},
`set_function` fails with `PinInvalidFunction`, but the recorded pull has
already been overwritten to "floating" (the only mutation performed before
the validation check); the rest of the state is unchanged. -/
theorem C3_amended_invalid_function (s : PinState) (v : String)
    (h1 : v ≠ "input") (h2 : v ≠ "output") :
    set_function s v = (some Err.PinInvalidFunction, { s with pull := "floating" }) := by
  unfold set_function
  simp [h1, h2]

/-- Claim C3, amended, witness at value "i2c". -/
theorem C3_amended_invalid_function_witness :
    set_function (initPin true) "i2c" =
      (some Err.PinInvalidFunction, { initPin true with pull := "floating" }) :=
  C3_amended_invalid_function (initPin true) "i2c" (by decide) (by decide)

/-- Claim C4, counterexample.  The claim states that `set_edges` with a value
outside {both, rising, falling} fails with an invalid-argument error from the
error taxonomy and that no foreign error escapes.  In the source the lookup
`self.GPIO_EDGES[value]` has no `except` handler, so a raw `KeyError` — not a
taxonomy error — propagates to the caller. -/
theorem C4_counterexample_keyerror_escapes :
    (set_edges (initPin false) "banana").1 = some Err.KeyError ∧
    taxonomyErr Err.KeyError = false := by
  decide

/-- Claim C4, amended: for every value outside {both, rising, falling},
`set_edges` fails with the raw `KeyError` of the underlying mapping — a
foreign error type escapes to the caller — although the `when_changed`
registration is still restored by the `finally` block, and the stored edge
mode is unchanged. -/
theorem C4_amended_keyerror (s : PinState) (v : String)
    (h1 : v ≠ "both") (h2 : v ≠ "rising") (h3 : v ≠ "falling") :
    (set_edges s v).1 = some Err.KeyError ∧
    taxonomyErr Err.KeyError = false ∧
    (set_edges s v).2.whenChanged = s.whenChanged ∧
    (set_edges s v).2.edges = s.edges := by
  have hd : dictGet GPIO_EDGES v = none := by
    apply dictGet_eq_none
    intro p hp
    simp only [GPIO_EDGES, List.mem_cons, List.not_mem_nil, or_false] at hp
    rcases hp with rfl | rfl | rfl
    · simpa using Ne.symm h1
    · simpa using Ne.symm h2
    · simpa using Ne.symm h3
  unfold set_edges
  simp [hd, set_when_changed_whenChanged, set_when_changed_edges, taxonomyErr]

/-- Claim C4, amended, witness at value "banana". -/
theorem C4_amended_keyerror_witness :
    (set_edges (initPin true) "banana").1 = some Err.KeyError ∧
    taxonomyErr Err.KeyError = false ∧
    (set_edges (initPin true) "banana").2.whenChanged = (initPin true).whenChanged ∧
    (set_edges (initPin true) "banana").2.edges = (initPin true).edges :=
  C4_amended_keyerror (initPin true) "banana" (by decide) (by decide) (by decide)

/-- Claim C5: on a pin whose function reads back as input and whose board
reports a fixed pull-up (the only fixed direction the board data can report,
so D = "up"), `set_pull v` succeeds exactly when `v = "up"`, and every other
value — "down", "floating", or an unrecognized string — fails with
`PinFixedPull`; on a pin whose function reads back as anything other than
input, `set_pull` fails with `PinFixedPull` regardless of the value. -/
theorem C5_set_pull_fixed (pu : Bool) (s : PinState) (v : String) :
    (get_function s = some "input" → pu = true →
       (((set_pull pu s v).1 = none) ↔ v = "up") ∧
       (v ≠ "up" → set_pull pu s v = (some Err.PinFixedPull, s))) ∧
    (∀ fn, get_function s = some fn → fn ≠ "input" →
       set_pull pu s v = (some Err.PinFixedPull, s)) := by
  constructor
  · intro hin hpu
    subst hpu
    unfold set_pull
    rw [hin]
    by_cases hv : v = "up"
    · subst hv
      simp [dictGet_pulls_up]
    · simp [hv]
  · intro fn hfn hne
    unfold set_pull
    rw [hfn]
    simp [hne]

/-- Claim C5, witness: a board-pulled-up input pin accepts "up", rejects
"down" with `PinFixedPull`, and a pin switched to output rejects even "up"
with `PinFixedPull`. -/
theorem C5_set_pull_fixed_witness :
    (set_pull true (initPin true) "up").1 = none ∧
    set_pull true (initPin true) "down" = (some Err.PinFixedPull, initPin true) ∧
    set_pull true (set_function (initPin true) "output").2 "up" =
      (some Err.PinFixedPull, (set_function (initPin true) "output").2) := by
  refine ⟨?_, ?_, ?_⟩
  · exact ((C5_set_pull_fixed true (initPin true) "up").1 rfl rfl).1.mpr rfl
  · exact ((C5_set_pull_fixed true (initPin true) "down").1 rfl rfl).2 (by decide)
  · exact (C5_set_pull_fixed true (set_function (initPin true) "output").2 "up").2
      "output" (by decide) (by decide)

/-- Claim C6: the four-branch contract of `set_frequency` on
`(self._frequency, value)` for a positive rate: null to non-null starts PWM
with duty cycle 0 (failing with `PinPWMFixedValue` when the pin cannot host
PWM); non-null to non-null changes the rate with the stored duty cycle
untouched; non-null to null stops PWM and clears the duty-cycle tracking;
null to null is a no-op. -/
theorem C6_set_frequency_transitions (s : PinState) (v : ℚ) (hv : 0 < v) :
    (s.frequency = none →
       set_frequency false s (some v) = (some Err.PinPWMFixedValue, s) ∧
       set_frequency true s (some v) =
         (none, { s with pwm := true
                         hw := { s.hw with pwmRunning := true, pwmFreq := v, pwmDuty := 0 }
                         dutyCycle := some 0
                         frequency := some v })) ∧
    (s.frequency.isSome → ∀ al,
       (set_frequency al s (some v) =
          (none, { s with hw := { s.hw with pwmFreq := v }, frequency := some v }) ∧
        (set_frequency al s (some v)).2.dutyCycle = s.dutyCycle) ∧
       set_frequency al s none =
         (none, { s with pwm := false
                         hw := { s.hw with pwmRunning := false }
                         dutyCycle := none
                         frequency := none })) ∧
    (s.frequency = none → ∀ al, set_frequency al s none = (none, s)) := by
  have hnle : ¬ v ≤ 0 := not_le.mpr hv
  refine ⟨?_, ?_, ?_⟩
  · intro hf
    unfold set_frequency
    rw [hf]
    simp [hnle]
  · intro hf al
    obtain ⟨f0, hf0⟩ := Option.isSome_iff_exists.mp hf
    unfold set_frequency
    rw [hf0]
    simp [hnle]
  · intro hf al
    unfold set_frequency
    rw [hf]

/-- Claim C6, witness: on a fresh pin, starting at 100 Hz fails with
`PinPWMFixedValue` when PWM is unavailable and otherwise records duty cycle
0; changing a running 100 Hz channel to 200 Hz keeps the stored duty cycle;
a null-to-null call is a no-op. -/
theorem C6_set_frequency_transitions_witness :
    set_frequency false (initPin false) (some 100) =
      (some Err.PinPWMFixedValue, initPin false) ∧
    (set_frequency true (initPin false) (some 100)).2.dutyCycle = some 0 ∧
    (set_frequency true (set_frequency true (initPin false) (some 100)).2 (some 200)).2.dutyCycle =
      (set_frequency true (initPin false) (some 100)).2.dutyCycle ∧
    set_frequency true (initPin false) none = (none, initPin false) := by
  refine ⟨((C6_set_frequency_transitions (initPin false) 100 (by norm_num)).1 rfl).1,
    ?_, ?_, (C6_set_frequency_transitions (initPin false) 100 (by norm_num)).2.2 rfl true⟩
  · rw [((C6_set_frequency_transitions (initPin false) 100 (by norm_num)).1 rfl).2]
  · exact (((C6_set_frequency_transitions (set_frequency true (initPin false) (some 100)).2
      200 (by norm_num)).2.1 (by decide) true).1).2

/-- Claim C7: for every pin in PWM mode and every duty cycle x in the unit
interval, `set_state x` succeeds (the hardware `ChangeDutyCycle(x * 100)`
accepts every value in 0..100) and a subsequent `get_state` returns exactly
the stored x, not a re-derived hardware reading. -/
theorem C7_pwm_roundtrip (s : PinState) (x : ℚ) (hpwm : s.pwm = true)
    (h0 : 0 ≤ x) (h1 : x ≤ 1) :
    (set_state s x).1 = none ∧ get_state (set_state s x).2 = some x := by
  have hc : ¬ (x * 100 < 0 ∨ 100 < x * 100) := by
    push_neg
    constructor <;> nlinarith
  unfold set_state
  rw [if_pos hpwm, if_neg hc]
  refine ⟨rfl, ?_⟩
  unfold get_state
  simp [hpwm]

/-- Claim C7, witness: on a 100 Hz PWM pin, writing duty cycle 1/2 reads
back as exactly 1/2. -/
theorem C7_pwm_roundtrip_witness :
    (set_state (set_frequency true (initPin false) (some 100)).2 (1/2)).1 = none ∧
    get_state (set_state (set_frequency true (initPin false) (some 100)).2 (1/2)).2 =
      some (1/2) :=
  C7_pwm_roundtrip (set_frequency true (initPin false) (some 100)).2 (1/2)
    (by decide) (by norm_num) (by norm_num)

/-- Claim C8: in non-PWM mode, `set_state` on a pin whose hardware direction
is input fails with `PinSetInput` (the `RuntimeError` of `GPIO.output` on a
channel not set up as an output, remapped), and `set_state` on an output pin
with a value that is not a digital level fails with `PinInvalidState` (the
`ValueError` of `GPIO.output`, remapped); both leave the state unchanged. -/
theorem C8_digital_write_errors (s : PinState) (v : ℚ) (hnp : s.pwm = false) :
    (s.hw.func = GPIO.IN → set_state s v = (some Err.PinSetInput, s)) ∧
    (s.hw.func = GPIO.OUT → v ≠ 0 → v ≠ 1 →
       set_state s v = (some Err.PinInvalidState, s)) := by
  constructor
  · intro hf
    unfold set_state
    rw [hnp]
    have : s.hw.func ≠ GPIO.OUT := by rw [hf]; decide
    simp [this]
  · intro hf h0 h1
    unfold set_state
    rw [hnp]
    simp [hf, h0, h1]

/-- Claim C8, witness: a fresh input pin rejects a digital write with
`PinSetInput`; a pin switched to output rejects the non-digital value 1/2
with `PinInvalidState`. -/
theorem C8_digital_write_errors_witness :
    set_state (initPin false) 1 = (some Err.PinSetInput, initPin false) ∧
    set_state (set_function (initPin false) "output").2 (1/2) =
      (some Err.PinInvalidState, (set_function (initPin false) "output").2) := by
  constructor
  · exact (C8_digital_write_errors (initPin false) 1 rfl).1 rfl
  · exact (C8_digital_write_errors (set_function (initPin false) "output").2 (1/2)
      (by decide)).2 (by decide) (by norm_num) (by norm_num)

/-- Claim C9: for every pin, `set_bounce` with a negative value fails with
`PinInvalidBounce` before anything is touched, and `set_bounce 0`
succeeds. -/
theorem C9_bounce_boundary (s : PinState) (v : ℚ) (hv : v < 0) :
    set_bounce s (some v) = (some Err.PinInvalidBounce, s) ∧
    (set_bounce s (some 0)).1 = none := by
  constructor
  · unfold set_bounce
    simp [hv]
  · unfold set_bounce
    norm_num

/-- Claim C9, witness at v = -0.001. -/
theorem C9_bounce_boundary_witness :
    set_bounce (initPin false) (some (-(1/1000))) =
      (some Err.PinInvalidBounce, initPin false) ∧
    (set_bounce (initPin false) (some 0)).1 = none :=
  C9_bounce_boundary (initPin false) (-(1/1000)) (by norm_num)

/-- Claim C10: the bounce interval is stored as `int(value * 1000)`
milliseconds, so for every non-negative v, `set_bounce v` followed by
`get_bounce` returns `int(v * 1000) / 1000` (sub-millisecond fractions
truncated) rather than v itself, and `set_bounce None` reads back as
`None` via the -666 sentinel. -/
theorem C10_bounce_granularity (s : PinState) (v : ℚ) (hv : 0 ≤ v) :
    get_bounce (set_bounce s (some v)).2 = some ((truncInt (v * 1000) : ℚ) / 1000) ∧
    get_bounce (set_bounce s none).2 = none := by
  have hmul : (0 : ℚ) ≤ v * 1000 := by positivity
  have htr : truncInt (v * 1000) ≠ -666 := by
    have hfl : 0 ≤ ⌊v * 1000⌋ := Int.floor_nonneg.mpr hmul
    unfold truncInt
    rw [if_pos hmul]
    omega
  have hlt : ¬ v < 0 := not_lt.mpr hv
  constructor
  · unfold set_bounce get_bounce
    simp [hlt, set_when_changed_bounce, htr]
  · unfold set_bounce get_bounce
    simp [set_when_changed_bounce]

/-- Claim C10, witness: 0.0005 seconds is stored as 0 milliseconds and reads
back as 0, not 0.0005; a null bounce reads back as null. -/
theorem C10_bounce_granularity_witness :
    get_bounce (set_bounce (initPin false) (some (1/2000))).2 =
      some ((truncInt ((1/2000 : ℚ) * 1000) : ℚ) / 1000) ∧
    get_bounce (set_bounce (initPin false) none).2 = none ∧
    ((truncInt ((1/2000 : ℚ) * 1000) : ℚ) / 1000 = 0 ∧ (1/2000 : ℚ) ≠ 0) := by
  refine ⟨(C10_bounce_granularity (initPin false) (1/2000) (by norm_num)).1,
    (C10_bounce_granularity (initPin false) (1/2000) (by norm_num)).2, ?_, by norm_num⟩
  have : truncInt ((1/2000 : ℚ) * 1000) = 0 := by
    unfold truncInt
    norm_num
  rw [this]
  norm_num

end RPiGPIO
